import Mathlib

/-!
Shallow embedding of `platemate` (src/platemate/data.py, src/platemate/cli.py)
for verification of the specification's claims.

Modelling conventions:
* Python exceptions are values of `PyExc`; a Python function that may raise
  is embedded as a function into `Except PyExc _`.
* A pandas cell value is a `Cell`: either a string or a number (numbers are
  modelled as rationals; the claims never depend on float rounding).
* Python `dict`s are association lists with first-occurrence lookup and
  in-place update (`dlookup` / `dictSet`); building a dict from a stream of
  key/value pairs (a dict comprehension) is `dictOfPairs`, which preserves
  the position of the first insertion and keeps the last value, exactly as
  CPython dicts do.
* Digit matching: Python's `\d` and `[0-9]` are modelled as ASCII digits
  (`Char.isDigit`); the repository's data only ever uses ASCII locations.
-/

deriving instance DecidableEq for Except

inductive PyExc where
  /-- e.g. `None.group(...)`, or a missing attribute on a pandas row -/
  | attributeError
  /-- e.g. `re.match`/`re.search` applied to a non-string -/
  | typeError
  | indexError
  /-- Python `ValueError` (the spec calls this `InvalidArgument`) -/
  | valueError
  /-- a raw container `KeyError` -/
  | keyError
  /-- `KeyError("Invalid analyte/standard, does not exist.")` (spec: `NotFound`) -/
  | keyErrorInvalid
  /-- `KeyError("Dataframe must contain the column 'analyte'")` (spec: `SchemaError`) -/
  | keyErrorSchema
deriving DecidableEq

/-- A pandas cell: a string or a number. -/
inductive Cell where
  | str (s : String)
  | num (q : ℚ)
deriving DecidableEq

/-- Python dict lookup `d[k]` on an association list (first match wins). -/
def dlookup {α β : Type} [DecidableEq α] (k : α) : List (α × β) → Option β
  | [] => none
  | (k', v) :: rest => if k' = k then some v else dlookup k rest

/-- Python dict update `d[k] = v`: replace the first binding of `k` in place,
append a new binding if `k` is absent. -/
def dictSet {α β : Type} [DecidableEq α] (d : List (α × β)) (k : α) (v : β) :
    List (α × β) :=
  match d with
  | [] => [(k, v)]
  | (k', v') :: rest => if k' = k then (k, v) :: rest else (k', v') :: dictSet rest k v

/-- Insert a stream of key/value pairs into dict `d`, left to right. -/
def dictInsertAll {α β : Type} [DecidableEq α] (d : List (α × β)) :
    List (α × β) → List (α × β)
  | [] => d
  | kv :: rest => dictInsertAll (dictSet d kv.1 kv.2) rest

/-- Build a Python dict from a list of key/value pairs (a dict comprehension):
first insertion fixes the position of a key, the last value for a key wins. -/
def dictOfPairs {α β : Type} [DecidableEq α] (ps : List (α × β)) : List (α × β) :=
  dictInsertAll [] ps

/-- Evaluate a Python list/dict comprehension whose body may raise: elements are
produced left to right and the first exception aborts the whole comprehension. -/
def exceptMapList {α β : Type} (f : α → Except PyExc β) : List α → Except PyExc (List β)
  | [] => .ok []
  | a :: rest =>
    match f a with
    | .error e => .error e
    | .ok b =>
      match exceptMapList f rest with
      | .error e => .error e
      | .ok bs => .ok (b :: bs)

/-- `WellStatistic` (data.py line 10): a single named measurement.  The Python
attribute `variable` is a Lean keyword, so the field is named `varName`. -/
structure WellStatistic where
  datatype : String
  varName : String
  value : Cell
deriving DecidableEq

/-- `WellStatisticList.search` (data.py lines 24-31): filter by `datatype`
and/or `varName`; with neither argument it raises `ValueError`. -/
def WellStatisticList.search (l : List WellStatistic)
    (datatype varName : Option String) : Except PyExc (List WellStatistic) :=
  match datatype with
  | some dt =>
    match varName with
    | some v => .ok (l.filter (fun ws => ws.datatype = dt ∧ ws.varName = v))
    | none => .ok (l.filter (fun ws => ws.datatype = dt))
  | none =>
    match varName with
    | some v => .ok (l.filter (fun ws => ws.varName = v))
    | none => .error .valueError

/-- The first maximal run of ASCII digits in `s`: group 1 of Python's
`re.search(r"(\d+).*", s)`, or `none` when `s` has no digit (where `re.search`
returns `None`). -/
def firstDigitRun (s : String) : Option String :=
  match s.data.dropWhile (fun c => !c.isDigit) with
  | [] => none
  | c :: rest => some (String.mk (c :: rest.takeWhile Char.isDigit))

/-- Python `int` applied to a nonempty string of ASCII digits. -/
def digitsToNat (s : String) : ℕ :=
  s.data.foldl (fun a c => a * 10 + (c.toNat - '0'.toNat)) 0

/-- The body of the `try:` block in `Well.__init__` (data.py line 45):
`int(re.search(r"(\d+).*", location).group(1))`.  When the search fails it
returns `None` and `.group` raises `AttributeError`; when it succeeds, group 1
is a nonempty digit run, so `int` and `.group(1)` never raise. -/
def wellLocationBody (location : String) : Except PyExc ℕ :=
  match firstDigitRun location with
  | none => .error .attributeError
  | some ds => .ok (digitsToNat ds)

/-- The whole `try/except` of `Well.__init__` (data.py lines 44-47): only
`IndexError` and `ValueError` are turned into a `None` location; any other
exception (in particular `AttributeError`) propagates. -/
def wellLocationField (location : String) : Except PyExc (Option ℕ) :=
  match wellLocationBody location with
  | .ok n => .ok (some n)
  | .error .indexError => .ok none
  | .error .valueError => .ok none
  | .error e => .error e

/-- `Well` (data.py line 34).  `location_str` keeps the raw string; `location`
is the parsed leading digit run (or `none`). -/
structure Well where
  location_str : String
  location : Option ℕ
  sample_id : String
  data : List WellStatistic
  standard : Bool
  background : Bool
deriving DecidableEq

/-- `Well.__init__` (data.py lines 35-47), which may raise out of the
location-parsing `try/except`. -/
def Well.init (location sample_id : String) (data : List WellStatistic)
    (standard background : Bool) : Except PyExc Well :=
  match wellLocationField location with
  | .error e => .error e
  | .ok loc => .ok ⟨location, loc, sample_id, data, standard, background⟩

/-- Anchored match of the tail of a pattern `word[0-9]+`: consume the literal
`word`, then require at least one ASCII digit. -/
def matchTail (word : List Char) (cs : List Char) : Bool :=
  match word, cs with
  | [], [] => false
  | [], d :: _ => d.isDigit
  | _ :: _, [] => false
  | w :: ws, c :: rest => if c = w then matchTail ws rest else false

/-- `re.match(pattern, s) is not None` for a pattern `[c₁c₂]word[0-9]+`
(the shape of both default classification patterns): a start-anchored,
not full-string, match. -/
def matchClassWordDigits (c₁ c₂ : Char) (word : List Char) (s : String) : Bool :=
  match s.data with
  | [] => false
  | c :: rest => if c = c₁ ∨ c = c₂ then matchTail word rest else false

/-- The default standard pattern `[Ss]tandard[0-9]+` (data.py line 54). -/
def reMatchStd (s : String) : Bool :=
  matchClassWordDigits 'S' 's' "tandard".data s

/-- The default background pattern `[Bb]ackground[0-9]+` (data.py line 55). -/
def reMatchBg (s : String) : Bool :=
  matchClassWordDigits 'B' 'b' "ackground".data s

/-- A pandas row (`pd.Series`): column names paired with cell values, in
column order. -/
structure Row where
  cells : List (String × Cell)
deriving DecidableEq

/-- `Well.from_series` (data.py lines 49-65).  The two classification patterns
are embedded as their compiled match functions (`String → Bool`); the defaults
are `reMatchStd` and `reMatchBg`.  `row.Location` / `row.Sample` on a row
lacking that column raises `AttributeError`; `re.match` (and `re.search` inside
`Well.__init__`) on a non-string value raises `TypeError`. -/
def Well.from_series (row : Row) (datatype : String)
    (stdMatch bgMatch : String → Bool) : Except PyExc Well :=
  let vars := row.cells.filter (fun kv => kv.1 ≠ "Location" ∧ kv.1 ≠ "Sample")
  let data := vars.map (fun kv => WellStatistic.mk datatype kv.1 kv.2)
  match dlookup "Location" row.cells, dlookup "Sample" row.cells with
  | some (Cell.str loc), some (Cell.str samp) =>
    Well.init loc samp data (stdMatch samp) (bgMatch samp)
  | some _, some _ => .error .typeError
  | _, _ => .error .attributeError

/-- A pandas `DataFrame`: named columns and rows of cells; every row has one
cell per column (the invariant pandas maintains). -/
structure DataFrame where
  columns : List String
  rows : List (List Cell)
  hrows : ∀ r ∈ rows, r.length = columns.length

/-- `df.iterrows()` yields each row as a `pd.Series` indexed by the columns. -/
def DataFrame.records (df : DataFrame) : List Row :=
  df.rows.map (fun r => Row.mk (df.columns.zip r))

/-- `_plate_from_dataframe` (data.py lines 68-81): one `Well.from_series` per
row, datatype fixed to `"fluorescence intensity"`, in row order. -/
def platesFromDataframe (df : DataFrame) (stdMatch bgMatch : String → Bool) :
    Except PyExc (List Well) :=
  exceptMapList
    (fun row => Well.from_series row "fluorescence intensity" stdMatch bgMatch)
    df.records

/-- `Plate` (data.py lines 84-97): wells plus provenance metadata. -/
structure Plate where
  data : List Well
  filepath : Option String
  run_datetime : Option String
  batch_id : Option String
  meta : Option (List (String × Cell))
deriving DecidableEq

/-- `Plate.from_dataframe` (data.py lines 99-117): builds the wells and stores
`filepath=None` together with the supplied metadata. -/
def Plate.from_dataframe (df : DataFrame) (run_datetime batch_id : Option String)
    (meta : Option (List (String × Cell))) (stdMatch bgMatch : String → Bool) :
    Except PyExc Plate :=
  match platesFromDataframe df stdMatch bgMatch with
  | .error e => .error e
  | .ok wells => .ok ⟨wells, none, run_datetime, batch_id, meta⟩

/-- `Plate.from_csv` (data.py lines 119-137).  `pd.read_csv` is embedded as an
arbitrary reader function `readCsv` whose I/O and parse errors propagate
unmodified; on success the supplied `filepath` is stored. -/
def Plate.from_csv (readCsv : String → Except PyExc DataFrame) (filepath : String)
    (run_datetime batch_id : Option String) (meta : Option (List (String × Cell)))
    (stdMatch bgMatch : String → Bool) : Except PyExc Plate :=
  match readCsv filepath with
  | .error e => .error e
  | .ok df =>
    match platesFromDataframe df stdMatch bgMatch with
    | .error e => .error e
    | .ok wells => .ok ⟨wells, some filepath, run_datetime, batch_id, meta⟩

/-- `Plate.from_excel` (data.py lines 139-160).  `pd.read_excel(filepath,
**kwargs)` is embedded as a reader function already closed over the
pass-through keyword options. -/
def Plate.from_excel (readExcel : String → Except PyExc DataFrame) (filepath : String)
    (run_datetime batch_id : Option String) (meta : Option (List (String × Cell)))
    (stdMatch bgMatch : String → Bool) : Except PyExc Plate :=
  match readExcel filepath with
  | .error e => .error e
  | .ok df =>
    match platesFromDataframe df stdMatch bgMatch with
    | .error e => .error e
    | .ok wells => .ok ⟨wells, some filepath, run_datetime, batch_id, meta⟩

/-- `_ref_from_dataframe` (data.py lines 177-181): a dict comprehension over
`data.to_dict("records")`; `x['analyte']` on a record lacking the key raises
`KeyError`, which the `except` re-raises with the schema message.  Keys of the
outer dict are the analyte cell values (which need not be strings). -/
def refFromDataframe (df : DataFrame) :
    Except PyExc (List (Cell × List (String × Cell))) :=
  match exceptMapList
      (fun row =>
        match dlookup "analyte" row.cells with
        | some a => Except.ok (a, row.cells.filter (fun kv => kv.1 ≠ "analyte"))
        | none => Except.error PyExc.keyError)
      df.records with
  | .ok pairs => .ok (dictOfPairs pairs)
  | .error .keyError => .error .keyErrorSchema
  | .error e => .error e

/-- `Reference` (data.py lines 184-186).  `self.data = data or defaultdict(dict)`:
a missing or *falsy* (empty) `data` argument yields a `defaultdict(dict)`,
whose lookups insert an empty inner dict instead of raising; `isDefault`
records which kind of container backs the reference. -/
structure Reference where
  isDefault : Bool
  data : List (Cell × List (String × Cell))
deriving DecidableEq

/-- `Reference.__init__` (data.py lines 185-186): `data or defaultdict(dict)`. -/
def Reference.init (data : Option (List (Cell × List (String × Cell)))) : Reference :=
  match data with
  | none => ⟨true, []⟩
  | some d => if d.isEmpty then ⟨true, []⟩ else ⟨false, d⟩

/-- `Reference.from_dataframe` (data.py lines 188-190). -/
def Reference.from_dataframe (df : DataFrame) : Except PyExc Reference :=
  match refFromDataframe df with
  | .ok d => .ok (Reference.init (some d))
  | .error e => .error e

/-- `Reference.from_csv` (data.py lines 192-194), with `pd.read_csv` embedded
as a reader function. -/
def Reference.from_csv (readCsv : String → Except PyExc DataFrame)
    (filepath : String) : Except PyExc Reference :=
  match readCsv filepath with
  | .error e => .error e
  | .ok df => Reference.from_dataframe df

/-- `Reference.from_excel` (data.py lines 196-198), with `pd.read_excel`
embedded as a reader function closed over its keyword options. -/
def Reference.from_excel (readExcel : String → Except PyExc DataFrame)
    (filepath : String) : Except PyExc Reference :=
  match readExcel filepath with
  | .error e => .error e
  | .ok df => Reference.from_dataframe df

/-- `self.data[analyte]` inside `Reference`: a plain dict raises `KeyError` on
a missing key; a `defaultdict(dict)` inserts and returns an empty inner dict
(a mutation that persists). -/
def Reference.lookupAnalyte (r : Reference) (a : Cell) :
    Except PyExc (List (String × Cell)) × Reference :=
  match dlookup a r.data with
  | some inner => (.ok inner, r)
  | none =>
    if r.isDefault then (.ok [], ⟨r.isDefault, r.data ++ [(a, [])]⟩)
    else (.error .keyError, r)

/-- `Reference.put` (data.py lines 200-201): `self.data[analyte][standard] =
value`.  The read `self.data[analyte]` happens first, so on a plain dict a
missing analyte raises `KeyError`; on a `defaultdict` it creates the entry. -/
def Reference.put (r : Reference) (a s : String) (v : ℚ) : Except PyExc Reference :=
  match dlookup (Cell.str a) r.data with
  | some inner =>
    .ok ⟨r.isDefault, dictSet r.data (Cell.str a) (dictSet inner s (Cell.num v))⟩
  | none =>
    if r.isDefault then .ok ⟨r.isDefault, r.data ++ [(Cell.str a, [(s, Cell.num v)])]⟩
    else .error .keyError

/-- The possible results of `Reference.get`: a scalar, a standard-indexed
series, or an analyte-indexed series. -/
inductive GetRes where
  | scalar (c : Cell)
  | seriesStd (m : List (String × Cell))
  | seriesAna (m : List (Cell × Cell))
deriving DecidableEq

/-- The `try:` body of `Reference.get` (data.py lines 204-212), threading the
(possibly mutated) reference through. -/
def Reference.getImpl (r : Reference) (analyte standard : Option String) :
    Except PyExc GetRes × Reference :=
  match analyte with
  | some a =>
    match r.lookupAnalyte (Cell.str a) with
    | (.error e, r') => (.error e, r')
    | (.ok inner, r') =>
      match standard with
      | some s =>
        match dlookup s inner with
        | some v => (.ok (.scalar v), r')
        | none => (.error .keyError, r')
      | none => (.ok (.seriesStd inner), r')
  | none =>
    match standard with
    | some s =>
      match exceptMapList
          (fun (kv : Cell × List (String × Cell)) =>
            match dlookup s kv.2 with
            | some v => Except.ok (kv.1, v)
            | none => Except.error PyExc.keyError)
          r.data with
      | .ok pairs => (.ok (.seriesAna (dictOfPairs pairs)), r)
      | .error e => (.error e, r)
    | none => (.error .valueError, r)

/-- `Reference.get` (data.py lines 203-214): the `except KeyError:` clause
re-raises any `KeyError` with the dedicated "Invalid analyte/standard" message;
`ValueError` passes through untouched. -/
def Reference.get (r : Reference) (analyte standard : Option String) :
    Except PyExc GetRes × Reference :=
  match r.getImpl analyte standard with
  | (.error .keyError, r') => (.error .keyErrorInvalid, r')
  | other => other

/-- `Reference.dataframe` (data.py lines 216-217): `pd.DataFrame(self.data).T`
materializes the analyte-major table (rows = analytes, columns = standards)
without touching the stored mapping; the unchanged reference is returned
alongside to make the absence of mutation expressible. -/
def Reference.dataframe (r : Reference) :
    List (Cell × List (String × Cell)) × Reference :=
  (r.data, r)

/-- Specification-side reading of a classification pattern `[c₁c₂]word[0-9]+`:
the string begins with `c₁` or `c₂`, then the literal `word`, then one or more
ASCII digits, and may continue arbitrarily (start-anchored, not full-string). -/
def specClassWordDigits (c₁ c₂ : Char) (word : List Char) (s : String) : Prop :=
  ∃ c ds rest, (c = c₁ ∨ c = c₂) ∧ ds ≠ [] ∧ (∀ x ∈ ds, x.isDigit = true) ∧
    s.data = c :: (word ++ ds ++ rest)

/-- Spec-side default standard pattern: `Standard` or `standard` followed by
one or more digits, anchored at the start. -/
def specStdMatch (s : String) : Prop :=
  specClassWordDigits 'S' 's' "tandard".data s

/-- Spec-side default background pattern: `Background` or `background`
followed by one or more digits, anchored at the start. -/
def specBgMatch (s : String) : Prop :=
  specClassWordDigits 'B' 'b' "ackground".data s

/-- The two-row example table of spec section 8.7. -/
def dfExample : DataFrame :=
  ⟨["Location", "Sample", "X", "Y"],
   [[.str "A1", .str "Standard1", .num 10, .num 20],
    [.str "B2", .str "Unknown", .num 5, .num 15]], by decide⟩

/-- A one-row table whose `Location` value contains no digit. -/
def dfNoDigitLoc : DataFrame :=
  ⟨["Location", "Sample"], [[.str "X", .str "Unknown"]], by decide⟩

/-- A one-row reference table lacking an `analyte` column. -/
def dfNoAnalyte : DataFrame := ⟨["x"], [[.num 1]], by decide⟩

/-- A zero-row table lacking an `analyte` column. -/
def dfNoAnalyteEmpty : DataFrame := ⟨["x"], [], by decide⟩

/-- A reference table in which analyte `A` appears twice. -/
def dfDupAnalyte : DataFrame :=
  ⟨["analyte", "S1"], [[.str "A", .num 1], [.str "A", .num 2]], by decide⟩

/-- A default-constructed reference: `Reference()` backed by `defaultdict`. -/
def refDefault : Reference := Reference.init none

/-- A plain-dict-backed reference holding one analyte `B`, as produced by
`Reference.from_dataframe` on a nonempty table. -/
def refPlain : Reference := Reference.init (some [(.str "B", [("S1", .num 1)])])

/-- The concrete wells produced from `dfExample` (spec section 8.7). -/
def wellsExample : List Well :=
  [⟨"A1", some 1, "Standard1",
    [⟨"fluorescence intensity", "X", .num 10⟩,
     ⟨"fluorescence intensity", "Y", .num 20⟩], true, false⟩,
   ⟨"B2", some 2, "Unknown",
    [⟨"fluorescence intensity", "X", .num 5⟩,
     ⟨"fluorescence intensity", "Y", .num 15⟩], false, false⟩]

/-- A file reader that always yields `dfExample` (a stand-in for a successful
`pd.read_csv` / `pd.read_excel` call). -/
def readerExample : String → Except PyExc DataFrame := fun _ => .ok dfExample

/-- The first row of `dfExample` as a series. -/
def rowStd : Row :=
  ⟨[("Location", .str "A1"), ("Sample", .str "Standard1"),
    ("X", .num 10), ("Y", .num 20)]⟩

/-- The well built from `rowStd` with the default patterns. -/
def wellStd : Well :=
  ⟨"A1", some 1, "Standard1",
   [⟨"fluorescence intensity", "X", .num 10⟩,
    ⟨"fluorescence intensity", "Y", .num 20⟩], true, false⟩

theorem dlookup_dictSet_self {α β : Type} [DecidableEq α] (d : List (α × β))
    (k : α) (v : β) : dlookup k (dictSet d k v) = some v := by
  induction d with
  | nil => simp [dictSet, dlookup]
  | cons kv rest ih =>
    obtain ⟨k', v'⟩ := kv
    by_cases h : k' = k
    · simp [dictSet, h, dlookup]
    · simp [dictSet, h, dlookup, ih]

theorem dlookup_dictSet_ne {α β : Type} [DecidableEq α] (d : List (α × β))
    (k j : α) (v : β) (h : j ≠ k) : dlookup j (dictSet d k v) = dlookup j d := by
  induction d with
  | nil => simp [dictSet, dlookup, Ne.symm h]
  | cons kv rest ih =>
    obtain ⟨k', v'⟩ := kv
    by_cases hk : k' = k
    · subst hk
      simp [dictSet, dlookup, Ne.symm h]
    · simp [dictSet, hk, dlookup, ih]

theorem dictInsertAll_append {α β : Type} [DecidableEq α] (xs ys : List (α × β)) :
    ∀ d : List (α × β), dictInsertAll d (xs ++ ys) = dictInsertAll (dictInsertAll d xs) ys := by
  induction xs with
  | nil => intro d; rfl
  | cons kv rest ih => intro d; simp [dictInsertAll, ih]

theorem dlookup_dictInsertAll_of_ne {α β : Type} [DecidableEq α]
    (ps : List (α × β)) (k : α) (h : ∀ kv ∈ ps, kv.1 ≠ k) :
    ∀ d : List (α × β), dlookup k (dictInsertAll d ps) = dlookup k d := by
  induction ps with
  | nil => intro d; rfl
  | cons kv rest ih =>
    intro d
    rw [dictInsertAll, ih (fun kv' hkv' => h kv' (List.mem_cons_of_mem _ hkv')),
      dlookup_dictSet_ne _ _ _ _ (Ne.symm (h kv (List.mem_cons_self _ _)))]

theorem dlookup_dictInsertAll_mem {α β : Type} [DecidableEq α]
    (ps : List (α × β)) (k : α) (v : β) :
    ∀ d : List (α × β), dlookup k (dictInsertAll d ps) = some v →
    (k, v) ∈ ps ∨ dlookup k d = some v := by
  induction ps with
  | nil => intro d h; exact Or.inr h
  | cons kv rest ih =>
    intro d h
    rcases ih (dictSet d kv.1 kv.2) h with hmem | hd
    · exact Or.inl (List.mem_cons_of_mem _ hmem)
    · by_cases hk : kv.1 = k
      · subst hk
        rw [dlookup_dictSet_self] at hd
        cases hd
        exact Or.inl (List.mem_cons_self _ _)
      · rw [dlookup_dictSet_ne _ _ _ _ (fun hj => hk hj.symm)] at hd
        exact Or.inr hd

theorem dlookup_dictInsertAll_isSome {α β : Type} [DecidableEq α]
    (ps : List (α × β)) (k : α) :
    ∀ d : List (α × β), ((∃ v', (k, v') ∈ ps) ∨ (dlookup k d).isSome = true) →
    (dlookup k (dictInsertAll d ps)).isSome = true := by
  induction ps with
  | nil =>
    intro d h
    rcases h with ⟨v', hv'⟩ | h
    · exact absurd hv' (List.not_mem_nil _)
    · exact h
  | cons kv rest ih =>
    intro d h
    rw [dictInsertAll]
    apply ih
    rcases h with ⟨v', hv'⟩ | h
    · rcases List.mem_cons.mp hv' with heq | hmem
      · right
        rw [← heq, dlookup_dictSet_self]
        rfl
      · exact Or.inl ⟨v', hmem⟩
    · by_cases hk : kv.1 = k
      · right; subst hk; rw [dlookup_dictSet_self]; rfl
      · right; rw [dlookup_dictSet_ne _ _ _ _ (fun hj => hk hj.symm)]; exact h

theorem dlookup_dictOfPairs_last {α β : Type} [DecidableEq α]
    (ps qs : List (α × β)) (k : α) (v : β) (h : ∀ kv ∈ qs, kv.1 ≠ k) :
    dlookup k (dictOfPairs (ps ++ (k, v) :: qs)) = some v := by
  unfold dictOfPairs
  have hsplit : ps ++ (k, v) :: qs = (ps ++ [(k, v)]) ++ qs := by simp
  rw [hsplit, dictInsertAll_append, dlookup_dictInsertAll_of_ne _ _ h,
    dictInsertAll_append]
  simp [dictInsertAll, dlookup_dictSet_self]

theorem exceptMapList_ok_of_forall {α β : Type} (f : α → Except PyExc β)
    (P : α → β → Prop) :
    ∀ xs : List α, (∀ x ∈ xs, ∃ y, f x = .ok y ∧ P x y) →
    ∃ ys, exceptMapList f xs = .ok ys ∧ ys.length = xs.length ∧
      (∀ (i : ℕ) (h1 : i < xs.length) (h2 : i < ys.length),
        P (xs.get ⟨i, h1⟩) (ys.get ⟨i, h2⟩)) ∧
      (∀ y ∈ ys, ∃ x ∈ xs, P x y) := by
  intro xs
  induction xs with
  | nil =>
    intro _
    exact ⟨[], rfl, rfl, fun i h1 _ => absurd h1 (Nat.not_lt_zero i), by simp⟩
  | cons x rest ih =>
    intro h
    obtain ⟨y, hy, hP⟩ := h x (List.mem_cons_self _ _)
    obtain ⟨ys, hys, hlen, hget, hmem⟩ :=
      ih (fun x' hx' => h x' (List.mem_cons_of_mem _ hx'))
    refine ⟨y :: ys, ?_, by simp [hlen], ?_, ?_⟩
    · rw [exceptMapList, hy, hys]
    · intro i h1 h2
      match i with
      | 0 => exact hP
      | Nat.succ j =>
        exact hget j (Nat.lt_of_succ_lt_succ (by simpa using h1))
          (Nat.lt_of_succ_lt_succ (by simpa using h2))
    · intro y' hy'
      rcases List.mem_cons.mp hy' with heq | hmem'
      · exact ⟨x, List.mem_cons_self _ _, heq ▸ hP⟩
      · obtain ⟨x', hx', hPx'⟩ := hmem y' hmem'
        exact ⟨x', List.mem_cons_of_mem _ hx', hPx'⟩

theorem exceptMapList_error_of_exists {α β : Type} (f : α → Except PyExc β)
    (e : PyExc) :
    ∀ xs : List α, (∀ x ∈ xs, (∃ y, f x = .ok y) ∨ f x = .error e) →
    (∃ x ∈ xs, f x = .error e) → exceptMapList f xs = .error e := by
  intro xs
  induction xs with
  | nil => intro _ hex; obtain ⟨x, hx, _⟩ := hex; exact absurd hx (List.not_mem_nil _)
  | cons x rest ih =>
    intro hall hex
    rcases hall x (List.mem_cons_self _ _) with ⟨y, hy⟩ | herr
    · have hrest : ∃ x' ∈ rest, f x' = .error e := by
        obtain ⟨x', hx', herr'⟩ := hex
        rcases List.mem_cons.mp hx' with heq | hmem
        · rw [heq, hy] at herr'
          exact absurd herr' (by simp)
        · exact ⟨x', hmem, herr'⟩
      rw [exceptMapList, hy,
        ih (fun x' hx' => hall x' (List.mem_cons_of_mem _ hx')) hrest]
    · rw [exceptMapList, herr]

theorem dlookup_zip_isSome (k : String) :
    ∀ (cols : List String) (r : List Cell), k ∈ cols → r.length = cols.length →
    (dlookup k (cols.zip r)).isSome = true := by
  intro cols
  induction cols with
  | nil => intro r hk _; exact absurd hk (List.not_mem_nil _)
  | cons c rest ih =>
    intro r hk hlen
    match r with
    | [] => simp at hlen
    | v :: rv =>
      rw [List.zip_cons_cons, dlookup]
      by_cases hc : c = k
      · simp [hc]
      · rcases List.mem_cons.mp hk with heq | hmem
        · exact absurd heq.symm hc
        · simp only [if_neg hc]
          exact ih rv hmem (by simpa using hlen)

theorem dlookup_zip_none (k : String) :
    ∀ (cols : List String) (r : List Cell), k ∉ cols →
    dlookup k (cols.zip r) = none := by
  intro cols
  induction cols with
  | nil => intro r _; cases r <;> rfl
  | cons c rest ih =>
    intro r hk
    match r with
    | [] => rfl
    | v :: rv =>
      have hck : c ≠ k := by
        intro hc
        subst hc
        exact hk (List.mem_cons_self _ _)
      rw [List.zip_cons_cons, dlookup, if_neg hck,
        ih rv (fun hm => hk (List.mem_cons_of_mem _ hm))]

theorem zip_filter_map_fst (p : String → Bool) :
    ∀ (cols : List String) (r : List Cell), r.length = cols.length →
    ((cols.zip r).filter (fun kv => p kv.1)).map Prod.fst = cols.filter p := by
  intro cols
  induction cols with
  | nil => intro r _; cases r <;> rfl
  | cons c rest ih =>
    intro r hlen
    match r with
    | [] => simp at hlen
    | v :: rv =>
      rw [List.zip_cons_cons]
      by_cases hp : p c
      · rw [List.filter_cons_of_pos, List.filter_cons_of_pos hp, List.map_cons,
          ih rv (by simpa using hlen)]
        exact hp
      · rw [List.filter_cons_of_neg, List.filter_cons_of_neg (by simpa using hp),
          ih rv (by simpa using hlen)]
        simpa using hp

theorem matchTail_iff (word : List Char) :
    ∀ cs : List Char, matchTail word cs = true ↔
      ∃ ds rest, ds ≠ [] ∧ (∀ x ∈ ds, x.isDigit = true) ∧ cs = word ++ (ds ++ rest) := by
  induction word with
  | nil =>
    intro cs
    constructor
    · intro h
      cases cs with
      | nil => simp [matchTail] at h
      | cons d t =>
        simp only [matchTail] at h
        refine ⟨[d], t, by simp, ?_, by simp⟩
        intro x hx
        rw [List.mem_singleton] at hx
        subst hx
        exact h
    · rintro ⟨ds, rest, hne, hdig, heq⟩
      cases ds with
      | nil => exact absurd rfl hne
      | cons e es =>
        simp only [List.nil_append, List.cons_append] at heq
        subst heq
        simp only [matchTail]
        exact hdig e (List.mem_cons_self _ _)
  | cons w ws ih =>
    intro cs
    constructor
    · intro h
      cases cs with
      | nil => simp [matchTail] at h
      | cons c t =>
        simp only [matchTail] at h
        by_cases hc : c = w
        · rw [if_pos hc] at h
          obtain ⟨ds, rest, hne, hdig, heq⟩ := (ih t).mp h
          exact ⟨ds, rest, hne, hdig, by rw [heq, hc, List.cons_append]⟩
        · rw [if_neg hc] at h
          exact absurd h (by simp)
    · rintro ⟨ds, rest, hne, hdig, heq⟩
      rw [heq, List.cons_append]
      simp only [matchTail, if_pos rfl]
      exact (ih _).mpr ⟨ds, rest, hne, hdig, rfl⟩

theorem matchClassWordDigits_iff (c₁ c₂ : Char) (word : List Char) (s : String) :
    matchClassWordDigits c₁ c₂ word s = true ↔ specClassWordDigits c₁ c₂ word s := by
  rcases hd : s.data with _ | ⟨c, rest⟩
  · constructor
    · intro h
      simp [matchClassWordDigits, hd] at h
    · rintro ⟨c, ds, r2, _, _, _, heq⟩
      rw [hd] at heq
      exact absurd heq (by simp)
  · constructor
    · intro h
      simp only [matchClassWordDigits, hd] at h
      by_cases hc : c = c₁ ∨ c = c₂
      · rw [if_pos hc] at h
        obtain ⟨ds, r2, hne, hdig, heq⟩ := (matchTail_iff word rest).mp h
        refine ⟨c, ds, r2, hc, hne, hdig, ?_⟩
        rw [hd, heq]
        simp [List.append_assoc]
      · rw [if_neg hc] at h
        exact absurd h (by simp)
    · rintro ⟨c', ds, r2, hc', hne, hdig, heq⟩
      rw [hd] at heq
      rw [List.cons_eq_cons] at heq
      obtain ⟨h1, h2⟩ := heq
      subst h1
      simp only [matchClassWordDigits, hd, if_pos hc']
      refine (matchTail_iff word rest).mpr ⟨ds, r2, hne, hdig, ?_⟩
      rw [h2]
      simp [List.append_assoc]

theorem filter_notLS_length (cols : List String) :
    (cols.filter (fun c => c ≠ "Location" ∧ c ≠ "Sample")).length
      + cols.count "Location" + cols.count "Sample" = cols.length := by
  induction cols with
  | nil => simp
  | cons c rest ih =>
    simp only [List.filter_cons, List.count_cons, List.length_cons, beq_iff_eq,
      decide_eq_true_eq]
    split_ifs <;> simp_all <;> omega

theorem dlookup_append_of_none {α β : Type} [DecidableEq α] (xs ys : List (α × β))
    (k : α) (h : dlookup k xs = none) : dlookup k (xs ++ ys) = dlookup k ys := by
  induction xs with
  | nil => rfl
  | cons kv rest ih =>
    obtain ⟨k', v'⟩ := kv
    rw [dlookup] at h
    by_cases hk : k' = k
    · rw [if_pos hk] at h
      cases h
    · rw [if_neg hk] at h
      rw [List.cons_append, dlookup, if_neg hk]
      exact ih h

theorem reference_init_data (d : List (Cell × List (String × Cell))) :
    (Reference.init (some d)).data = d := by
  rw [Reference.init]
  by_cases h : d.isEmpty
  · rw [if_pos h]
    exact (List.isEmpty_iff.mp h).symm
  · rw [if_neg h]

/-- C1: a `Well` whose location string starts with or contains a digit run gets
that run's integer value as `location` ("A12" and "12B" both give 12), but for
a location string containing no digits `Well.__init__` does NOT succeed with a
null location: `re.search` returns `None` and `.group(1)` raises
`AttributeError`, which the `except (IndexError, ValueError)` clause does not
catch.  The fallback to `None` that the code clearly intends (and the spec
describes) is dead code. -/
theorem well_location_no_digits_raises :
    wellLocationField "A12" = .ok (some 12) ∧
    wellLocationField "12B" = .ok (some 12) ∧
    Well.init "NoDigits" "Unknown" [] false false = .error .attributeError :=
  ⟨by decide, by decide, by decide⟩

/-- C7: `WellStatisticList.search` with neither argument raises `ValueError`
(`InvalidArgument`); with a datatype it returns exactly the order-preserving
subsequence whose datatype matches, and with both arguments the subsequence
matching both.  The function is pure, so the list is left untouched. -/
theorem search_requires_argument_and_filters :
    ∀ (l : List WellStatistic) (dt v : String),
      WellStatisticList.search l none none = .error .valueError ∧
      (∃ res, WellStatisticList.search l (some dt) none = .ok res ∧
        res.Sublist l ∧
        res = l.filter (fun ws => ws.datatype = dt) ∧
        ∀ ws, ws ∈ res ↔ ws ∈ l ∧ ws.datatype = dt) ∧
      (∃ res, WellStatisticList.search l (some dt) (some v) = .ok res ∧
        res.Sublist l ∧
        res = l.filter (fun ws => ws.datatype = dt ∧ ws.varName = v) ∧
        ∀ ws, ws ∈ res ↔ ws ∈ l ∧ ws.datatype = dt ∧ ws.varName = v) := by
  intro l dt v
  refine ⟨rfl, ⟨_, rfl, List.filter_sublist _, rfl, ?_⟩,
    ⟨_, rfl, List.filter_sublist _, rfl, ?_⟩⟩
  · intro ws
    simp [List.mem_filter]
  · intro ws
    simp [List.mem_filter, and_assoc]

/-- C2 counterexample: on a default-constructed `Reference` (backed by
`defaultdict(dict)`), requesting the absent analyte "A" with only the analyte
argument does NOT raise: `self.data[analyte]` silently inserts an empty inner
dict and an empty series is returned, contradicting the claim that any missing
key fails with `NotFound`. -/
theorem reference_get_default_missing_analyte_no_error :
    dlookup (Cell.str "A") refDefault.data = none ∧
    (refDefault.get (some "A") none).1 = .ok (.seriesStd []) :=
  ⟨rfl, rfl⟩

/-- C2 (amended): missing keys fail with the dedicated `NotFound` error
(`KeyError("Invalid analyte/standard, does not exist.")`, never the raw
container `KeyError`) in these cases: with both arguments given, whenever the
analyte is absent or its entry lacks the standard (any backing container);
with only the analyte given, whenever the analyte is absent and the reference
is plain-dict-backed (`defaultdict`-backed references instead return an empty
series, see the counterexample); with only the standard given, whenever some
stored analyte lacks that standard.  With neither argument the call fails with
`ValueError` (`InvalidArgument`). -/
theorem reference_get_notfound_invalid_argument :
    ∀ (r : Reference) (a s : String),
      ((dlookup (Cell.str a) r.data = none ∨
        (∃ inner, dlookup (Cell.str a) r.data = some inner ∧ dlookup s inner = none)) →
        (r.get (some a) (some s)).1 = .error .keyErrorInvalid) ∧
      (r.isDefault = false → dlookup (Cell.str a) r.data = none →
        (r.get (some a) none).1 = .error .keyErrorInvalid) ∧
      ((∃ kv ∈ r.data, dlookup s kv.2 = none) →
        (r.get none (some s)).1 = .error .keyErrorInvalid) ∧
      (r.get none none).1 = .error .valueError := by
  intro r a s
  refine ⟨?_, ?_, ?_, rfl⟩
  · intro h
    rcases h with hnone | ⟨inner, hin, hsn⟩
    · by_cases hd : r.isDefault = true
      · simp [Reference.get, Reference.getImpl, Reference.lookupAnalyte, hnone, hd, dlookup]
      · simp [Reference.get, Reference.getImpl, Reference.lookupAnalyte, hnone, hd]
    · simp [Reference.get, Reference.getImpl, Reference.lookupAnalyte, hin, hsn]
  · intro hdef hnone
    simp [Reference.get, Reference.getImpl, Reference.lookupAnalyte, hnone, hdef]
  · intro hex
    have herr : exceptMapList
        (fun (kv : Cell × List (String × Cell)) =>
          match dlookup s kv.2 with
          | some v => Except.ok (kv.1, v)
          | none => Except.error PyExc.keyError)
        r.data = .error .keyError := by
      apply exceptMapList_error_of_exists
      · intro kv _
        cases hkv : dlookup s kv.2 with
        | some v => exact Or.inl ⟨(kv.1, v), by simp [hkv]⟩
        | none => exact Or.inr (by simp [hkv])
      · obtain ⟨kv, hmem, hn⟩ := hex
        exact ⟨kv, hmem, by simp [hn]⟩
    rw [Reference.get, Reference.getImpl, herr]

/-- C2 witness: concrete instances of the amended theorem on `refPlain` (a
plain-dict-backed reference that stores only analyte "B"). -/
theorem reference_get_notfound_invalid_argument_witness :
    (refPlain.get (some "A") (some "S")).1 = .error .keyErrorInvalid ∧
    (refPlain.get (some "A") none).1 = .error .keyErrorInvalid ∧
    (refPlain.get none (some "S9")).1 = .error .keyErrorInvalid ∧
    (refPlain.get none none).1 = .error .valueError :=
  ⟨(reference_get_notfound_invalid_argument refPlain "A" "S").1 (Or.inl (by decide)),
   (reference_get_notfound_invalid_argument refPlain "A" "S").2.1 (by decide) (by decide),
   (reference_get_notfound_invalid_argument refPlain "A" "S9").2.2.1
     ⟨(Cell.str "B", [("S1", Cell.num 1)]), by decide, by decide⟩,
   (reference_get_notfound_invalid_argument refPlain "A" "S").2.2.2⟩

/-- C3 counterexample: `Reference.get` is not mutation-free on a
default-constructed reference: looking up the absent analyte "A" (with only
the analyte given) inserts an empty entry for "A" into the stored data. -/
theorem reference_get_default_backed_mutates :
    refDefault.data = [] ∧
    (refDefault.get (some "A") none).2.data = [(Cell.str "A", [])] :=
  ⟨rfl, rfl⟩

/-- C3 (amended): on a plain-dict-backed `Reference` (as built by the loaders
from a nonempty table) `get` never mutates the stored data, whether it
succeeds or fails; `dataframe` never mutates on any reference.  On a
`defaultdict`-backed reference, `get` with a missing analyte argument inserts
an empty entry (see the counterexample), so only `put` — and that `get`
corner — ever change the data. -/
theorem reference_get_dataframe_no_mutation :
    ∀ (r : Reference) (analyte standard : Option String),
      (r.isDefault = false → (r.get analyte standard).2 = r) ∧
      r.dataframe.2 = r := by
  intro r analyte standard
  refine ⟨?_, rfl⟩
  intro hdef
  cases analyte with
  | some a =>
    cases hla : dlookup (Cell.str a) r.data with
    | some inner =>
      cases standard with
      | some s =>
        cases hs : dlookup s inner with
        | some v =>
          simp [Reference.get, Reference.getImpl, Reference.lookupAnalyte, hla, hs]
        | none =>
          simp [Reference.get, Reference.getImpl, Reference.lookupAnalyte, hla, hs]
      | none =>
        simp [Reference.get, Reference.getImpl, Reference.lookupAnalyte, hla]
    | none =>
      cases standard with
      | some s =>
        simp [Reference.get, Reference.getImpl, Reference.lookupAnalyte, hla, hdef]
      | none =>
        simp [Reference.get, Reference.getImpl, Reference.lookupAnalyte, hla, hdef]
  | none =>
    cases standard with
    | some s =>
      cases hm : exceptMapList
          (fun (kv : Cell × List (String × Cell)) =>
            match dlookup s kv.2 with
            | some v => Except.ok (kv.1, v)
            | none => Except.error PyExc.keyError)
          r.data with
      | ok pairs =>
        simp [Reference.get, Reference.getImpl, hm]
      | error e =>
        cases e <;> simp [Reference.get, Reference.getImpl, hm]
    | none => rfl

/-- C3 witness: the amended theorem applied to the plain-dict-backed
`refPlain` at a failing lookup, and to its `dataframe` projection. -/
theorem reference_get_dataframe_no_mutation_witness :
    (refPlain.get (some "Z") (some "S")).2 = refPlain ∧
    refPlain.dataframe.2 = refPlain :=
  ⟨(reference_get_dataframe_no_mutation refPlain (some "Z") (some "S")).1 (by decide),
   (reference_get_dataframe_no_mutation refPlain none none).2⟩

/-- C4 counterexample: `put` is not an unconditional upsert on every
`Reference`: on the plain-dict-backed `refPlain` (which lacks analyte "A"),
`self.data[analyte]` raises a raw `KeyError` before the assignment happens, so
no entry is created. -/
theorem reference_put_plain_missing_analyte_raises :
    refPlain.isDefault = false ∧
    dlookup (Cell.str "A") refPlain.data = none ∧
    refPlain.put "A" "S1" (7 / 2) = .error .keyError :=
  ⟨rfl, rfl, by decide⟩

/-- C4 (amended): `put(a, s, v)` is an upsert whenever the reference is
`defaultdict`-backed (where it also creates the analyte entry if absent) or
the analyte already exists; in those cases a subsequent `get(a, s)` returns
`v`.  On a plain-dict-backed reference with an absent analyte, `put` instead
raises a raw `KeyError` (see the counterexample). -/
theorem reference_put_then_get :
    ∀ (r : Reference) (a s : String) (v : ℚ),
      (r.isDefault = true ∨ (dlookup (Cell.str a) r.data).isSome = true) →
      ∃ r', r.put a s v = .ok r' ∧
        (r'.get (some a) (some s)).1 = .ok (.scalar (.num v)) := by
  intro r a s v h
  cases hla : dlookup (Cell.str a) r.data with
  | some inner =>
    refine ⟨⟨r.isDefault, dictSet r.data (Cell.str a) (dictSet inner s (Cell.num v))⟩,
      by simp [Reference.put, hla], ?_⟩
    simp [Reference.get, Reference.getImpl, Reference.lookupAnalyte,
      dlookup_dictSet_self, dlookup_dictSet_self r.data]
  | none =>
    have hdef : r.isDefault = true := by
      rcases h with hdef | hsome
      · exact hdef
      · rw [hla] at hsome
        cases hsome
    refine ⟨⟨r.isDefault, r.data ++ [(Cell.str a, [(s, Cell.num v)])]⟩,
      by simp [Reference.put, hla, hdef], ?_⟩
    have happ : dlookup (Cell.str a) (r.data ++ [(Cell.str a, [(s, Cell.num v)])]) =
        some [(s, Cell.num v)] := by
      rw [dlookup_append_of_none _ _ _ hla]
      simp [dlookup]
    simp [Reference.get, Reference.getImpl, Reference.lookupAnalyte, happ, dlookup]

/-- C4 witness: the amended theorem applied to the default-constructed
reference, which accepts a brand-new analyte. -/
theorem reference_put_then_get_witness :
    refDefault.isDefault = true ∧
    ∃ r', refDefault.put "A" "S1" (7 / 2) = .ok r' ∧
      (r'.get (some "A") (some "S1")).1 = .ok (.scalar (.num (7 / 2))) :=
  ⟨rfl, reference_put_then_get refDefault "A" "S1" (7 / 2) (Or.inl rfl)⟩

/-- C5: for every well built from a row with the default patterns, the
`standard` flag is true exactly when the sample identifier starts with
`Standard` or `standard` followed by one or more digits, and `background`
exactly when it starts with `Background` or `background` followed by digits;
the match is start-anchored, not full-string ("Standard1suffix" matches); and
no mutual exclusivity is enforced — with caller-supplied patterns both flags
can be true, and with the defaults both are false on "Unknown". -/
theorem from_series_flags_match_anchored :
    (∀ (row : Row) (dt : String) (w : Well),
      Well.from_series row dt reMatchStd reMatchBg = .ok w →
      ((w.standard = true ↔ specStdMatch w.sample_id) ∧
       (w.background = true ↔ specBgMatch w.sample_id))) ∧
    reMatchStd "Standard1suffix" = true ∧
    (∃ (stdM bgM : String → Bool) (row : Row) (w : Well),
      Well.from_series row "fluorescence intensity" stdM bgM = .ok w ∧
      w.standard = true ∧ w.background = true) ∧
    (∃ w : Well,
      Well.from_series (Row.mk [("Location", .str "A1"), ("Sample", .str "Unknown")])
        "fluorescence intensity" reMatchStd reMatchBg = .ok w ∧
      w.standard = false ∧ w.background = false) := by
  refine ⟨?_, by decide, ?_, ?_⟩
  · intro row dt w h
    cases hL : dlookup "Location" row.cells with
    | none =>
      cases hS : dlookup "Sample" row.cells with
      | none => simp [Well.from_series, hL, hS] at h
      | some cs => simp [Well.from_series, hL, hS] at h
    | some cl =>
      cases hS : dlookup "Sample" row.cells with
      | none => cases cl <;> simp [Well.from_series, hL, hS] at h
      | some cs =>
        cases cl with
        | num q => cases cs <;> simp [Well.from_series, hL, hS] at h
        | str loc =>
          cases cs with
          | num q => simp [Well.from_series, hL, hS] at h
          | str samp =>
            simp only [Well.from_series, hL, hS] at h
            cases hloc : wellLocationField loc with
            | error e => simp [Well.init, hloc] at h
            | ok lc =>
              simp only [Well.init, hloc, Except.ok.injEq] at h
              subst h
              constructor
              · exact matchClassWordDigits_iff 'S' 's' "tandard".data samp
              · exact matchClassWordDigits_iff 'B' 'b' "ackground".data samp
  · exact ⟨fun _ => true, fun _ => true,
      Row.mk [("Location", .str "A1"), ("Sample", .str "x")],
      ⟨"A1", some 1, "x", [], true, true⟩, by decide, rfl, rfl⟩
  · exact ⟨⟨"A1", some 1, "Unknown", [], false, false⟩, by decide, rfl, rfl⟩

/-- C5 witness: the flag equivalence instantiated on the concrete well built
from `rowStd` (sample "Standard1"). -/
theorem from_series_flags_match_anchored_witness :
    (wellStd.standard = true ↔ specStdMatch wellStd.sample_id) ∧
    (wellStd.background = true ↔ specBgMatch wellStd.sample_id) :=
  from_series_flags_match_anchored.1 rowStd "fluorescence intensity" wellStd (by decide)

theorem from_series_ok (cols : List String) (r : List Cell) (stdM bgM : String → Bool)
    (dt loc samp : String)
    (hlen : r.length = cols.length)
    (hL : dlookup "Location" (cols.zip r) = some (Cell.str loc))
    (hdig : (firstDigitRun loc).isSome = true)
    (hS : dlookup "Sample" (cols.zip r) = some (Cell.str samp)) :
    ∃ w, Well.from_series (Row.mk (cols.zip r)) dt stdM bgM = .ok w ∧
      w.location_str = loc ∧ w.sample_id = samp ∧
      (∀ ws ∈ w.data, ws.datatype = dt) ∧
      w.data.map (fun ws => ws.varName) =
        cols.filter (fun c => c ≠ "Location" ∧ c ≠ "Sample") := by
  obtain ⟨ds, hds⟩ := Option.isSome_iff_exists.mp hdig
  refine ⟨⟨loc, some (digitsToNat ds), samp,
    ((cols.zip r).filter (fun kv => kv.1 ≠ "Location" ∧ kv.1 ≠ "Sample")).map
      (fun kv => ⟨dt, kv.1, kv.2⟩), stdM samp, bgM samp⟩, ?_, rfl, rfl, ?_, ?_⟩
  · simp only [Well.from_series, hL, hS, Well.init, wellLocationField,
      wellLocationBody, hds]
  · intro ws hws
    simp only [List.mem_map] at hws
    obtain ⟨kv, _, hkv⟩ := hws
    rw [← hkv]
  · have hfun : ((fun (ws : WellStatistic) => ws.varName) ∘
        fun (kv : String × Cell) => (⟨dt, kv.1, kv.2⟩ : WellStatistic)) = Prod.fst := rfl
    rw [List.map_map, hfun]
    exact zip_filter_map_fst (fun c => decide (c ≠ "Location" ∧ c ≠ "Sample")) cols r hlen

/-- C6 counterexample: a one-row table with `Location` and `Sample` columns
whose location value has no digits does not yield one well — the whole plate
build raises `AttributeError` out of `Well.__init__`'s location parsing. -/
theorem plate_from_dataframe_no_digit_location_raises :
    dfNoDigitLoc.rows.length = 1 ∧
    Plate.from_dataframe dfNoDigitLoc none none none reMatchStd reMatchBg =
      .error .attributeError :=
  ⟨rfl, by decide⟩

/-- C6 (amended): for every table with exactly one `Location` and one `Sample`
column, all of whose rows carry string `Location`/`Sample` cells with at least
one digit in each location (the non-digit case raises instead, see the
counterexample), building a plate succeeds with exactly one well per data row,
in row order; each well has one statistic per remaining column, `column count
− 2` of them, in original column order, all tagged with the datatype
"fluorescence intensity". -/
theorem plate_from_dataframe_shape :
    ∀ (df : DataFrame) (rd bid : Option String) (m : Option (List (String × Cell)))
      (stdM bgM : String → Bool),
      df.columns.count "Location" = 1 →
      df.columns.count "Sample" = 1 →
      (∀ r ∈ df.rows, ∃ loc samp,
        dlookup "Location" (df.columns.zip r) = some (Cell.str loc) ∧
        (firstDigitRun loc).isSome = true ∧
        dlookup "Sample" (df.columns.zip r) = some (Cell.str samp)) →
      ∃ p, Plate.from_dataframe df rd bid m stdM bgM = .ok p ∧
        p.data.length = df.rows.length ∧
        (∀ w ∈ p.data,
          w.data.length = df.columns.length - 2 ∧
          (∀ ws ∈ w.data, ws.datatype = "fluorescence intensity") ∧
          w.data.map (fun ws => ws.varName) =
            df.columns.filter (fun c => c ≠ "Location" ∧ c ≠ "Sample")) ∧
        (∀ (i : ℕ) (h1 : i < df.records.length) (h2 : i < p.data.length),
          dlookup "Sample" (df.records.get ⟨i, h1⟩).cells =
            some (Cell.str ((p.data.get ⟨i, h2⟩).sample_id)) ∧
          dlookup "Location" (df.records.get ⟨i, h1⟩).cells =
            some (Cell.str ((p.data.get ⟨i, h2⟩).location_str))) := by
  intro df rd bid m stdM bgM hcL hcS hwf
  have hall : ∀ row ∈ df.records,
      ∃ w, Well.from_series row "fluorescence intensity" stdM bgM = .ok w ∧
        ((∀ ws ∈ w.data, ws.datatype = "fluorescence intensity") ∧
         w.data.map (fun ws => ws.varName) =
           df.columns.filter (fun c => c ≠ "Location" ∧ c ≠ "Sample") ∧
         dlookup "Sample" row.cells = some (Cell.str w.sample_id) ∧
         dlookup "Location" row.cells = some (Cell.str w.location_str)) := by
    intro row hrow
    rw [DataFrame.records, List.mem_map] at hrow
    obtain ⟨r, hr, hrw⟩ := hrow
    subst hrw
    obtain ⟨loc, samp, hLr, hdigr, hSr⟩ := hwf r hr
    obtain ⟨w, hok, hls, hsi, hdt, hmap⟩ :=
      from_series_ok df.columns r stdM bgM "fluorescence intensity" loc samp
        (df.hrows r hr) hLr hdigr hSr
    refine ⟨w, hok, hdt, hmap, ?_, ?_⟩
    · rw [hsi]
      exact hSr
    · rw [hls]
      exact hLr
  obtain ⟨ws, hmapM, hlen, hget, hmem⟩ :=
    exceptMapList_ok_of_forall _ _ df.records hall
  refine ⟨⟨ws, none, rd, bid, m⟩, ?_, ?_, ?_, ?_⟩
  · simp only [Plate.from_dataframe, platesFromDataframe, hmapM]
  · show ws.length = df.rows.length
    rw [hlen, DataFrame.records, List.length_map]
  · intro w hw
    obtain ⟨row, hrow, hdt, hmap, _, _⟩ := hmem w hw
    refine ⟨?_, hdt, hmap⟩
    have h1 : w.data.length =
        (df.columns.filter (fun c => c ≠ "Location" ∧ c ≠ "Sample")).length := by
      rw [← hmap, List.length_map]
    have h2 := filter_notLS_length df.columns
    rw [hcL, hcS] at h2
    omega
  · intro i h1 h2
    have hp := hget i h1 (by rwa [hlen])
    exact ⟨hp.2.2.1, hp.2.2.2⟩

/-- C6 witness: the amended theorem applied to the concrete two-row table
`dfExample` of spec section 8.7. -/
theorem plate_from_dataframe_shape_witness :
    ∃ p, Plate.from_dataframe dfExample none none none reMatchStd reMatchBg = .ok p ∧
      p.data.length = dfExample.rows.length ∧
      (∀ w ∈ p.data,
        w.data.length = dfExample.columns.length - 2 ∧
        (∀ ws ∈ w.data, ws.datatype = "fluorescence intensity") ∧
        w.data.map (fun ws => ws.varName) =
          dfExample.columns.filter (fun c => c ≠ "Location" ∧ c ≠ "Sample")) ∧
      (∀ (i : ℕ) (h1 : i < dfExample.records.length) (h2 : i < p.data.length),
        dlookup "Sample" (dfExample.records.get ⟨i, h1⟩).cells =
          some (Cell.str ((p.data.get ⟨i, h2⟩).sample_id)) ∧
        dlookup "Location" (dfExample.records.get ⟨i, h1⟩).cells =
          some (Cell.str ((p.data.get ⟨i, h2⟩).location_str))) := by
  apply plate_from_dataframe_shape dfExample none none none reMatchStd reMatchBg
    (by decide) (by decide)
  intro r hr
  fin_cases hr
  · exact ⟨"A1", "Standard1", by decide, by decide, by decide⟩
  · exact ⟨"B2", "Unknown", by decide, by decide, by decide⟩

theorem drop_eq_get_cons {α : Type} :
    ∀ (l : List α) (n : ℕ) (h : n < l.length),
      l.drop n = l.get ⟨n, h⟩ :: l.drop (n + 1) := by
  intro l
  induction l with
  | nil => intro n h; simp at h
  | cons x t ih =>
    intro n h
    match n with
    | 0 => rfl
    | Nat.succ k => exact ih k (Nat.lt_of_succ_lt_succ h)

theorem refFromDataframe_ok_pairs (df : DataFrame) (hmem : "analyte" ∈ df.columns) :
    ∃ pairs, refFromDataframe df = .ok (dictOfPairs pairs) ∧
      pairs.length = df.records.length ∧
      (∀ (i : ℕ) (h1 : i < df.records.length) (h2 : i < pairs.length),
        dlookup "analyte" (df.records.get ⟨i, h1⟩).cells =
          some ((pairs.get ⟨i, h2⟩).1) ∧
        (pairs.get ⟨i, h2⟩).2 =
          (df.records.get ⟨i, h1⟩).cells.filter (fun kv => kv.1 ≠ "analyte")) ∧
      (∀ pr ∈ pairs, ∃ row ∈ df.records,
        dlookup "analyte" row.cells = some pr.1 ∧
        pr.2 = row.cells.filter (fun kv => kv.1 ≠ "analyte")) := by
  have hall : ∀ row ∈ df.records,
      ∃ pr : Cell × List (String × Cell),
        (match dlookup "analyte" row.cells with
         | some a =>
           Except.ok (a, row.cells.filter (fun (kv : String × Cell) => kv.1 ≠ "analyte"))
         | none => Except.error PyExc.keyError) = .ok pr ∧
        (dlookup "analyte" row.cells = some pr.1 ∧
         pr.2 = row.cells.filter (fun (kv : String × Cell) => kv.1 ≠ "analyte")) := by
    intro row hrow
    rw [DataFrame.records, List.mem_map] at hrow
    obtain ⟨r, hr, hrw⟩ := hrow
    subst hrw
    have hs : (dlookup "analyte" (df.columns.zip r)).isSome = true :=
      dlookup_zip_isSome "analyte" df.columns r hmem (df.hrows r hr)
    obtain ⟨a, ha⟩ := Option.isSome_iff_exists.mp hs
    exact ⟨(a, (df.columns.zip r).filter (fun (kv : String × Cell) => kv.1 ≠ "analyte")),
      by simp [ha], by simp [ha]⟩
  obtain ⟨pairs, hml, hplen, hpget, hpmem⟩ :=
    exceptMapList_ok_of_forall
      (fun row => match dlookup "analyte" row.cells with
        | some a => Except.ok (a, row.cells.filter (fun kv => kv.1 ≠ "analyte"))
        | none => Except.error PyExc.keyError)
      (fun row pr => dlookup "analyte" row.cells = some pr.1 ∧
        pr.2 = row.cells.filter (fun kv => kv.1 ≠ "analyte"))
      df.records hall
  refine ⟨pairs, ?_, hplen, ?_, hpmem⟩
  · simp only [refFromDataframe, hml]
  · intro i h1 h2
    exact hpget i h1 h2

/-- C8 counterexample: a zero-row table lacking an "analyte" column loads
without error — the dict comprehension over `to_dict("records")` is empty, so
the `KeyError` that would trigger the schema message never fires. -/
theorem reference_from_dataframe_empty_no_schema_error :
    "analyte" ∉ dfNoAnalyteEmpty.columns ∧
    Reference.from_dataframe dfNoAnalyteEmpty = .ok ⟨true, []⟩ :=
  ⟨by decide, rfl⟩

/-- C8 (amended): a table with at least one data row and no "analyte" column
fails with the schema error (`KeyError("Dataframe must contain the column
'analyte'")`); a zero-row table loads successfully regardless of its columns
(see the counterexample).  A table containing the "analyte" column loads and
maps each row's analyte value to that row's remaining columns (for duplicated
analytes, to the remaining columns of one of the rows carrying that value). -/
theorem reference_from_dataframe_schema :
    ∀ df : DataFrame,
      (df.rows ≠ [] → "analyte" ∉ df.columns →
        Reference.from_dataframe df = .error .keyErrorSchema) ∧
      ("analyte" ∈ df.columns →
        ∃ ref, Reference.from_dataframe df = .ok ref ∧
          ∀ r ∈ df.rows, ∀ a, dlookup "analyte" (df.columns.zip r) = some a →
            ∃ r' ∈ df.rows,
              dlookup "analyte" (df.columns.zip r') = some a ∧
              dlookup a ref.data =
                some ((df.columns.zip r').filter (fun kv => kv.1 ≠ "analyte"))) := by
  intro df
  constructor
  · intro hne hnm
    cases hrows0 : df.rows with
    | nil => exact absurd hrows0 hne
    | cons r0 rest =>
      have hg : dlookup "analyte" (df.columns.zip r0) = none :=
        dlookup_zip_none "analyte" df.columns r0 hnm
      simp only [Reference.from_dataframe, refFromDataframe, DataFrame.records,
        hrows0, List.map_cons, exceptMapList, hg]
  · intro hmem
    obtain ⟨pairs, hok, hplen, hpget, hpmem⟩ := refFromDataframe_ok_pairs df hmem
    refine ⟨Reference.init (some (dictOfPairs pairs)), ?_, ?_⟩
    · simp only [Reference.from_dataframe, hok]
    · intro r hr a ha
      have hrec : Row.mk (df.columns.zip r) ∈ df.records := by
        rw [DataFrame.records]
        exact List.mem_map_of_mem _ hr
      obtain ⟨i, hi⟩ := List.get_of_mem hrec
      have hi2 : i.1 < pairs.length := by rw [hplen]; exact i.2
      have hpi := hpget i.1 i.2 hi2
      rw [hi] at hpi
      have hfst : (pairs.get ⟨i.1, hi2⟩).1 = a := by
        have h0 := hpi.1
        rw [ha] at h0
        exact (Option.some.inj h0).symm
      have hmemp : (a, (pairs.get ⟨i.1, hi2⟩).2) ∈ pairs := by
        rw [← hfst, Prod.mk.eta]
        exact List.get_mem pairs i.1 hi2
      have hisSome : (dlookup a (dictOfPairs pairs)).isSome = true :=
        dlookup_dictInsertAll_isSome pairs a []
          (Or.inl ⟨(pairs.get ⟨i.1, hi2⟩).2, hmemp⟩)
      obtain ⟨v, hv⟩ := Option.isSome_iff_exists.mp hisSome
      have hvm : (a, v) ∈ pairs := by
        rcases dlookup_dictInsertAll_mem pairs a v [] hv with h | h
        · exact h
        · cases h
      obtain ⟨row', hrow', hfst', hsnd'⟩ := hpmem (a, v) hvm
      rw [DataFrame.records, List.mem_map] at hrow'
      obtain ⟨r', hr', hrw'⟩ := hrow'
      subst hrw'
      refine ⟨r', hr', hfst', ?_⟩
      rw [reference_init_data, hv]
      exact congrArg some hsnd'

/-- C8 witness: the amended theorem applied to the one-row no-analyte table
(schema error) and the duplicated-analyte table (successful load). -/
theorem reference_from_dataframe_schema_witness :
    Reference.from_dataframe dfNoAnalyte = .error .keyErrorSchema ∧
    (∃ ref, Reference.from_dataframe dfDupAnalyte = .ok ref ∧
      ∀ r ∈ dfDupAnalyte.rows, ∀ a,
        dlookup "analyte" (dfDupAnalyte.columns.zip r) = some a →
        ∃ r' ∈ dfDupAnalyte.rows,
          dlookup "analyte" (dfDupAnalyte.columns.zip r') = some a ∧
          dlookup a ref.data =
            some ((dfDupAnalyte.columns.zip r').filter (fun kv => kv.1 ≠ "analyte"))) :=
  ⟨(reference_from_dataframe_schema dfNoAnalyte).1 (by decide) (by decide),
   (reference_from_dataframe_schema dfDupAnalyte).2 (by decide)⟩

/-- C9: when the same analyte value appears in several rows, loading succeeds
without any duplicate-detection error, and the stored entry for that analyte
is exactly the one built from the last such row: the dict comprehension
inserts rows left to right and a later insertion for the same key overwrites
the earlier value. -/
theorem reference_from_dataframe_last_wins :
    ∀ df : DataFrame, "analyte" ∈ df.columns →
      ∃ ref, Reference.from_dataframe df = .ok ref ∧
        ∀ (i : ℕ) (hi : i < df.records.length) (a : Cell),
          dlookup "analyte" (df.records.get ⟨i, hi⟩).cells = some a →
          (∀ (j : ℕ) (hj : j < df.records.length), i < j →
            dlookup "analyte" (df.records.get ⟨j, hj⟩).cells ≠ some a) →
          dlookup a ref.data =
            some ((df.records.get ⟨i, hi⟩).cells.filter
              (fun (kv : String × Cell) => kv.1 ≠ "analyte")) := by
  intro df hmem
  obtain ⟨pairs, hok, hplen, hpget, hpmem⟩ := refFromDataframe_ok_pairs df hmem
  refine ⟨Reference.init (some (dictOfPairs pairs)), ?_, ?_⟩
  · simp only [Reference.from_dataframe, hok]
  · intro i hi a ha hlast
    rw [reference_init_data]
    have hi2 : i < pairs.length := by rw [hplen]; exact hi
    have hfst : (pairs.get ⟨i, hi2⟩).1 = a := by
      have h0 := (hpget i hi hi2).1
      rw [ha] at h0
      exact (Option.some.inj h0).symm
    have hqs : ∀ kv ∈ pairs.drop (i + 1), kv.1 ≠ a := by
      intro kv hkv
      obtain ⟨j, hj⟩ := List.get_of_mem hkv
      have hlt : i + 1 + j.1 < pairs.length := by
        have h2 := j.2
        have h3 : (List.drop (i + 1) pairs).length = pairs.length - (i + 1) :=
          List.length_drop _ _
        omega
      have hgd : (pairs.drop (i + 1)).get j = pairs.get ⟨i + 1 + j.1, hlt⟩ := by
        rw [List.get_drop]
      have hlt' : i + 1 + j.1 < df.records.length := by rw [← hplen]; exact hlt
      have hpj := (hpget (i + 1 + j.1) hlt' hlt).1
      intro hkva
      apply hlast (i + 1 + j.1) hlt' (by omega)
      rw [hpj]
      rw [← hj, hgd] at hkva
      rw [hkva]
    have hsplit : pairs = pairs.take i ++ pairs.get ⟨i, hi2⟩ :: pairs.drop (i + 1) := by
      conv_lhs => rw [← List.take_append_drop i pairs]
      rw [drop_eq_get_cons pairs i hi2]
    have hlastlem := dlookup_dictOfPairs_last (pairs.take i) (pairs.drop (i + 1))
      a ((pairs.get ⟨i, hi2⟩).2) hqs
    have hpair : pairs.get ⟨i, hi2⟩ = (a, (pairs.get ⟨i, hi2⟩).2) := by
      rw [← hfst, Prod.mk.eta]
    rw [hsplit, hpair, hlastlem]
    exact congrArg some (hpget i hi hi2).2

/-- C9 witness: in `dfDupAnalyte` the analyte "A" appears in both rows; the
loaded reference maps it to the value from the second (last) row. -/
theorem reference_from_dataframe_last_wins_witness :
    ∃ ref, Reference.from_dataframe dfDupAnalyte = .ok ref ∧
      dlookup (Cell.str "A") ref.data = some [("S1", Cell.num 2)] := by
  obtain ⟨ref, hok, hlast⟩ :=
    reference_from_dataframe_last_wins dfDupAnalyte (by decide)
  refine ⟨ref, hok, ?_⟩
  have h := hlast 1 (by decide) (Cell.str "A") (by decide)
    (fun j hj hij => by
      exfalso
      have : j < 2 := by simpa [DataFrame.records, dfDupAnalyte] using hj
      omega)
  rw [h]
  decide

/-- C10: `Plate.from_dataframe` always stores `filepath = None`, while
`Plate.from_csv` and `Plate.from_excel` store exactly the filepath argument
they were given; all three loaders pass `run_datetime`, `batch_id` and `meta`
through unchanged.  The file readers are quantified over, so this holds for
every successful read. -/
theorem plate_loaders_provenance :
    ∀ (df : DataFrame) (readF : String → Except PyExc DataFrame) (fp : String)
      (rd bid : Option String) (m : Option (List (String × Cell)))
      (stdM bgM : String → Bool) (p : Plate),
      (Plate.from_dataframe df rd bid m stdM bgM = .ok p →
        p.filepath = none ∧ p.run_datetime = rd ∧ p.batch_id = bid ∧ p.meta = m) ∧
      (Plate.from_csv readF fp rd bid m stdM bgM = .ok p →
        p.filepath = some fp ∧ p.run_datetime = rd ∧ p.batch_id = bid ∧ p.meta = m) ∧
      (Plate.from_excel readF fp rd bid m stdM bgM = .ok p →
        p.filepath = some fp ∧ p.run_datetime = rd ∧ p.batch_id = bid ∧ p.meta = m) := by
  intro df readF fp rd bid m stdM bgM p
  refine ⟨?_, ?_, ?_⟩
  · intro h
    rw [Plate.from_dataframe] at h
    split at h
    · cases h
    · cases h
      exact ⟨rfl, rfl, rfl, rfl⟩
  · intro h
    rw [Plate.from_csv] at h
    split at h
    · cases h
    · split at h
      · cases h
      · cases h
        exact ⟨rfl, rfl, rfl, rfl⟩
  · intro h
    rw [Plate.from_excel] at h
    split at h
    · cases h
    · split at h
      · cases h
      · cases h
        exact ⟨rfl, rfl, rfl, rfl⟩

/-- C10 witness: the three loaders applied to the concrete table `dfExample`
(with `readerExample` standing in for a successful file read). -/
theorem plate_loaders_provenance_witness :
    ((⟨wellsExample, none, some "2024-01-01", some "b1", none⟩ : Plate).filepath = none ∧
     (⟨wellsExample, none, some "2024-01-01", some "b1", none⟩ : Plate).run_datetime =
       some "2024-01-01" ∧
     (⟨wellsExample, none, some "2024-01-01", some "b1", none⟩ : Plate).batch_id =
       some "b1" ∧
     (⟨wellsExample, none, some "2024-01-01", some "b1", none⟩ : Plate).meta = none) ∧
    ((⟨wellsExample, some "plate.csv", none, none, none⟩ : Plate).filepath =
       some "plate.csv" ∧
     (⟨wellsExample, some "plate.csv", none, none, none⟩ : Plate).run_datetime = none ∧
     (⟨wellsExample, some "plate.csv", none, none, none⟩ : Plate).batch_id = none ∧
     (⟨wellsExample, some "plate.csv", none, none, none⟩ : Plate).meta = none) ∧
    ((⟨wellsExample, some "plate.xlsx", none, none, none⟩ : Plate).filepath =
       some "plate.xlsx" ∧
     (⟨wellsExample, some "plate.xlsx", none, none, none⟩ : Plate).run_datetime = none ∧
     (⟨wellsExample, some "plate.xlsx", none, none, none⟩ : Plate).batch_id = none ∧
     (⟨wellsExample, some "plate.xlsx", none, none, none⟩ : Plate).meta = none) :=
  ⟨(plate_loaders_provenance dfExample readerExample "plate.csv" (some "2024-01-01")
      (some "b1") none reMatchStd reMatchBg
      ⟨wellsExample, none, some "2024-01-01", some "b1", none⟩).1 (by decide),
   (plate_loaders_provenance dfExample readerExample "plate.csv" none none none
      reMatchStd reMatchBg
      ⟨wellsExample, some "plate.csv", none, none, none⟩).2.1 (by decide),
   (plate_loaders_provenance dfExample readerExample "plate.xlsx" none none none
      reMatchStd reMatchBg
      ⟨wellsExample, some "plate.xlsx", none, none, none⟩).2.2 (by decide)⟩
